import Mathlib

/-!
Verification development for the PyCHAMP single-field-and-well optimizer
(`py_champ/components/optimization_1f1w.py`).

The file shallowly embeds the compute-relevant parts of the class
`Optimization4SingleFieldAndWell` (and, for the equivalence claim, the
textually identical class `Optimization4SingleFieldAndWell_simCJ`):

* the water-right sliding-window constraint builder `setup_constr_wr`
  (both the generated cumulative caps and the carryover record stored
  for the next invocation);
* the crop-choice / rainfed constraint block of `setup_constr_field`;
* the post-solve satisfaction transform, the rainfed-flag
  post-processing, and the remaining-water-right update of `solve`;
* the objective selection of `setup_obj` and the (absent) horizon
  validation of `setup_ini_model`.

Machine floats of the source are modelled as exact rationals (or reals
where the exponential satisfaction transform is concerned); numpy
arrays are modelled as functions from indices.
-/

namespace PyChamp

/-- Tail-allocation policy of `setup_constr_wr`'s `tail_method` argument:
the string `"proportion"`, the string `"all"`, or a numeric value used
verbatim as the tail cap. -/
inductive TailMethod where
  | proportion : TailMethod
  | every : TailMethod
  | value : ℚ → TailMethod
deriving DecidableEq

/-- One cumulative-cap constraint generated by `setup_constr_wr`: the sum of
`irr_depth[j, h]` over all crop options `j` and over the `len` horizon years
`h ∈ [lo, lo + len)` is constrained to be at most `cap`. -/
structure WRCap where
  lo : ℕ
  len : ℕ
  cap : ℚ
deriving DecidableEq

/-- Water-right carryover record, as stored in `self.wrs_info` (lines
540-546 of the source). `remaining_tw` is an integer in the source
(Python allows it to go negative by repeated decrements), hence `Option ℤ`. -/
structure WrInfo where
  wr_depth : ℚ
  time_window : ℤ
  remaining_tw : Option ℤ
  remaining_wr : Option ℚ
  tail_method : TailMethod
deriving DecidableEq

/-- Field-type mode of `setup_constr_field` (any other string raises
`ValueError` in the source before any constraint of the branch is added). -/
inductive FieldType where
  | rainfed : FieldType
  | irrigated : FieldType
  | optimize : FieldType
deriving DecidableEq

/-- State produced by `setup_ini_model`: bookkeeping counters and the shapes
of the six shared horizon-indexed decision-variable arrays. -/
structure IniModel where
  crop_options : List String
  n_c : ℕ
  n_h : ℕ
  field_ids : List String
  well_ids : List String
  water_right_ids : List String
  n_fields : ℕ
  n_wells : ℕ
  n_water_rights : ℕ
  irr_depth_dim : ℕ × ℕ
  v_dim : ℕ
  y_dim : ℕ × ℕ
  y_y_dim : ℕ
  e_dim : ℕ
  profit_dim : ℕ
deriving DecidableEq

end PyChamp

namespace Optimization4SingleFieldAndWell

open PyChamp

/-- Embedding of `setup_ini_model` (source lines 16-97).  The source method
performs NO validation of `horizon`: it stores the dimensions and allocates
the six shared variable arrays with `m.addMVar((n_c, n_h))` etc.  The array
allocation is external (gurobipy/numpy): a shape with a negative dimension
raises `ValueError` there, while a zero-sized dimension is accepted and
yields empty variable arrays.  That external behaviour is the only failure
path, modelled here by the `horizon < 0` branch. -/
def setup_ini_model (horizon : ℤ) (crop_options : Option (List String)) :
    Except String IniModel :=
  let co := crop_options.getD ["corn", "others"]
  let n_c := co.length
  if horizon < 0 then
    Except.error "ValueError: negative dimensions are not allowed"
  else
    let n_h := horizon.toNat
    Except.ok
      { crop_options := co
        n_c := n_c
        n_h := n_h
        field_ids := []
        well_ids := []
        water_right_ids := []
        n_fields := 0
        n_wells := 0
        n_water_rights := 0
        irr_depth_dim := (n_c, n_h)
        v_dim := n_h
        y_dim := (n_c, n_h)
        y_y_dim := n_h
        e_dim := n_h
        profit_dim := n_h }

/-- Tail cap of `setup_constr_wr` (source lines 502-509): `"proportion"`
scales `wr_depth` by `remaining_length / time_window`, `"all"` grants the
full `wr_depth`, and a numeric `tail_method` is used verbatim. -/
def tailCap (wr_depth : ℚ) (time_window : ℕ) (tail_method : TailMethod)
    (remaining_length : ℕ) : ℚ :=
  match tail_method with
  | TailMethod.proportion => wr_depth * remaining_length / time_window
  | TailMethod.every => wr_depth
  | TailMethod.value q => q

/-- Middle- and last-period caps of `setup_constr_wr` (source lines
486-517): the `while remaining_length >= time_window` loop emits one full
window cap of `wr_depth` per iteration, advancing `start_index` by
`time_window`; the remaining tail years (if any) receive one cap computed
by `tailCap`.  (For `time_window = 0` the source loop would not terminate;
this embedding is only meaningful for a positive `time_window`.) -/
def windowCaps (wr_depth : ℚ) (time_window : ℕ) (tail_method : TailMethod)
    (start_index remaining_length : ℕ) : List WRCap :=
  if _h : 0 < time_window ∧ time_window ≤ remaining_length then
    ⟨start_index, time_window, wr_depth⟩ ::
      windowCaps wr_depth time_window tail_method (start_index + time_window)
        (remaining_length - time_window)
  else if 0 < remaining_length then
    [⟨start_index, remaining_length,
      tailCap wr_depth time_window tail_method remaining_length⟩]
  else []
termination_by remaining_length
decreasing_by omega

/-- The full list of cumulative caps generated by one call to
`setup_constr_wr` (source lines 458-517).  When both `remaining_tw` and
`remaining_wr` are present, the first `remaining_tw` years are capped at
`remaining_wr` and window generation starts at `start_index = remaining_tw`
with `remaining_length = n_h - remaining_tw`; otherwise it starts at 0 with
the full horizon. -/
def setup_constr_wr_caps (n_h : ℕ) (wr_depth : ℚ) (time_window : ℕ)
    (remaining_tw : Option ℕ) (remaining_wr : Option ℚ)
    (tail_method : TailMethod) : List WRCap :=
  match remaining_tw, remaining_wr with
  | some rtw, some rwr =>
      ⟨0, rtw, rwr⟩ ::
        windowCaps wr_depth time_window tail_method rtw (n_h - rtw)
  | _, _ => windowCaps wr_depth time_window tail_method 0 n_h

/-- The carryover record computed at the end of `setup_constr_wr` for the
next invocation (source lines 525-538), returned as the stored pair
`(remaining_wr, remaining_tw)`.  Note the source sets `remaining_tw` to
`time_window` (not `None`) in the `(remaining_tw - 1) == 0` branch. -/
def setup_constr_wr_next (wr_depth : ℚ) (time_window : ℤ)
    (remaining_tw : Option ℤ) (remaining_wr : Option ℚ) :
    Option ℚ × Option ℤ :=
  if time_window = 1 then (none, none)
  else
    match remaining_tw with
    | none => (some wr_depth, some (time_window - 1))
    | some rtw =>
        if rtw - 1 = 0 then (none, some time_window)
        else (remaining_wr, some (rtw - 1))

/-- Crop-choice and rainfed constraint block of `setup_constr_field`
(source lines 211-243), as a satisfaction predicate on an assignment of
values to the per-field binaries `i_crop`, `i_rainfed` (shape `(n_c, 1)`,
modelled by their single column) and the shared `irr_depth` array:
the binaries' 0/1 domains, the optional pinning equality constraints for
user-supplied `i_crop`/`i_rainfed`, the single-crop-choice sum, and the
field-type branch (`"rainfed"`: implication inequality plus zero
irrigation; `"irrigated"`: zero rainfed flag; `"optimize"`: implication
inequality plus the bilinear exclusivity product). -/
def field_constr_sat (n_c n_h : ℕ) (field_type : FieldType)
    (i_crop_input i_rainfed_input : Option (ℕ → ℚ))
    (i_crop i_rainfed : ℕ → ℚ) (irr_depth : ℕ → ℕ → ℚ) : Prop :=
  (∀ c < n_c, i_crop c = 0 ∨ i_crop c = 1) ∧
  (∀ c < n_c, i_rainfed c = 0 ∨ i_rainfed c = 1) ∧
  (∀ ic, i_crop_input = some ic → ∀ c < n_c, i_crop c = ic c) ∧
  ((∑ c in Finset.range n_c, i_crop c) = 1) ∧
  (match field_type with
   | FieldType.rainfed =>
       (∀ ir, i_rainfed_input = some ir → ∀ c < n_c, i_rainfed c = ir c) ∧
       (∀ c < n_c, 0 ≤ i_crop c - i_rainfed c) ∧
       (∀ c < n_c, ∀ h < n_h, irr_depth c h = 0)
   | FieldType.irrigated => ∀ c < n_c, i_rainfed c = 0
   | FieldType.optimize =>
       (∀ c < n_c, 0 ≤ i_crop c - i_rainfed c) ∧
       (∀ c < n_c, ∀ h < n_h, irr_depth c h * i_rainfed c = 0))

/-- Per-year energy coefficients and energy expression of the simple well
model `setup_constr_well` (source lines 342-361): drawdown is projected
linearly (`dwls h = dwl * h`), the lift head and storage coefficient are
corrected by it, and the energy of year `h` is the quadratic-plus-linear
function `AaB * v^2 + A_L_bB * v` of the irrigation volume. -/
def well_dwls (dwl : ℚ) (h : ℕ) : ℚ := dwl * h

/-- Projected lift head `l_wt - dwls` for year `h` (source line 345). -/
def well_l_wt (l_wt dwl : ℚ) (h : ℕ) : ℚ := l_wt - well_dwls dwl h

/-- Corrected storage coefficient `B - 0.00015 * dwls` (source line 347). -/
def well_B (B dwl : ℚ) (h : ℕ) : ℚ := B - 0.00015 * well_dwls dwl h

/-- Fixed center-pivot LEPA technology coefficient `tech_a` (source line 352). -/
def tech_a : ℚ := 0.0058

/-- Fixed center-pivot LEPA technology coefficient `tech_b` (source line 353). -/
def tech_b : ℚ := 0.212206

/-- Fixed pressure head `l_pr` of center-pivot LEPA (source line 354). -/
def l_pr : ℚ := 12.65

/-- Physical scaling `A = rho * g / eff_pump * 1e-11` (source line 356). -/
def well_A (rho g eff_pump : ℚ) : ℚ := rho * g / eff_pump * 1e-11

/-- Pumping energy of year `h` (source line 361). -/
def well_energy (dwl B l_wt eff_pump rho g : ℚ) (v : ℕ → ℚ) (h : ℕ) : ℚ :=
  well_A rho g eff_pump * tech_a * well_B B dwl h * v h * v h +
    well_A rho g eff_pump * (well_l_wt l_wt dwl h + l_pr + tech_b * well_B B dwl h)
      * v h

/-- Per-crop margin `crop_price - crop_cost` of `setup_constr_finance`
(source lines 373-376). -/
def crop_profit (crop_price crop_cost : String → ℚ) (c : String) : ℚ :=
  crop_price c - crop_cost c

/-- Hardcoded center-pivot LEPA annual technology cost (source line 377). -/
def cost_tech : ℚ := 1.876

/-- Energy cost of a year, `e * energy_price` (source line 390). -/
def cost_e (energy_price e_h : ℚ) : ℚ := e_h * energy_price

/-- Revenue of a year: sum over crop options of yield times margin
(source lines 391-397). -/
def rev (crop_options : List String) (crop_price crop_cost : String → ℚ)
    (y : String → ℚ) : ℚ :=
  (crop_options.map fun c => y c * crop_profit crop_price crop_cost c).sum

/-- Per-field-averaged profit of `finish_setup` (source line 626):
`(rev - cost_e - annual_cost) / n_f`; with zero registered fields the
division raises `ZeroDivisionError`. -/
def finish_profit (rev_h cost_e_h annual_cost_h : ℚ) (n_f : ℕ) :
    Except String ℚ :=
  if n_f = 0 then Except.error "ZeroDivisionError"
  else Except.ok ((rev_h - cost_e_h - annual_cost_h) / n_f)

/-- Metric keys supported by `setup_obj` (source line 577): the dictionary
`eval_metric_vars` maps `"profit"` and `"yield_rate"` to their variables. -/
def eval_metric_keys : List String := ["profit", "yield_rate"]

/-- Embedding of `setup_obj`'s target handling (source lines 575-600).
For a key of `eval_metric_vars` the satisfaction-proxy variable and its
defining constraint are added and the objective is set.  For any other
target the source only prints a warning and continues with
`metric_var = None`; building the proxy constraint then raises: with
`n_h ≥ 1` a `TypeError` (`None` is not subscriptable inside the
`quicksum` generator), and with `n_h = 0` a `ZeroDivisionError` from the
division of the empty sum by `n_h` (which also occurs for valid targets
when `n_h = 0`). -/
def setup_obj (target : String) (n_h : ℕ) : Except String String :=
  if n_h = 0 then Except.error "ZeroDivisionError"
  else if target ∈ eval_metric_keys then Except.ok target
  else Except.error "TypeError: NoneType is not subscriptable"

/-- First-year total irrigation depth over all crop options,
`np.sum(irr_depth[:, 0])`, as computed both in the rainfed post-processing
(source line 709) and in the remaining-water-right update (source line
720) of `solve`. -/
def firstYearIrr (n_c : ℕ) (irr_depth : ℕ → ℕ → ℚ) : ℚ :=
  ∑ j in Finset.range n_c, irr_depth j 0

/-- Rainfed post-processing of `solve` (source lines 707-713): if the
first-year total irrigation depth is `≤ 0` the field's rainfed indicator
is overwritten with 1 everywhere, and the result is in all cases
multiplied elementwise by the solved crop-choice indicator. -/
def update_rainfed (n_c : ℕ) (irr_depth : ℕ → ℕ → ℚ)
    (i_rainfed i_crop : ℕ → ℕ → ℚ) : ℕ → ℕ → ℚ :=
  let forced := if firstYearIrr n_c irr_depth ≤ 0 then
      (fun _ _ => (1 : ℚ)) else i_rainfed
  fun c h => forced c h * i_crop c h

/-- Remaining-water-right update of `solve` for one carryover record
(source lines 717-720): a record whose `remaining_wr` is present is
decremented by the first-year total irrigation depth; a record with an
absent `remaining_wr` is left untouched. -/
def update_remaining_wr (irr1 : ℚ) (r : WrInfo) : WrInfo :=
  match r.remaining_wr with
  | some wr => { r with remaining_wr := some (wr - irr1) }
  | none => r

/-- The update applied by `solve` to every record of `wrs_info`
(source lines 715-721). -/
def solve_update_wrs (n_c : ℕ) (irr_depth : ℕ → ℕ → ℚ)
    (wrs : List WrInfo) : List WrInfo :=
  wrs.map (update_remaining_wr (firstYearIrr n_c irr_depth))

/-- Clamp applied to the scaled metric before the exponential transform,
`metric_var[metric_var < 0] = 0` (source line 701). -/
noncomputable def clamp0 (x : ℝ) : ℝ := if x < 0 then 0 else x

/-- Per-year satisfaction `N_yr = 1 - exp(-alpha * metric_var)`
(source line 702). -/
noncomputable def N_yr (alpha x : ℝ) : ℝ := 1 - Real.exp (-alpha * x)

/-- Post-solve satisfaction `Sa = np.mean(N_yr)` of the metric scaled by
`scale` and clamped at zero (source lines 693-703). -/
noncomputable def Sa (alpha scale : ℝ) (n_h : ℕ) (metric : ℕ → ℝ) : ℝ :=
  (∑ h in Finset.range n_h, N_yr alpha (clamp0 (metric h / scale))) / n_h

/-- Filename normalization of `write_file` (source lines 838-843): the
extension is prefixed with a dot when missing and appended to the
filename when the filename does not already end with it. -/
def write_file_name (filename extension : String) : String :=
  let ext := if extension.startsWith "." then extension
    else "." ++ extension
  if filename.endsWith ext then filename else filename ++ ext

/-- Filename normalization of `do_IIS_gp` (source lines 814-816): appends
`.ilp` unless the last four characters already are `.ilp`. -/
def iis_file_name (filename : String) : String :=
  if filename.takeRight 4 = ".ilp" then filename else filename ++ ".ilp"

end Optimization4SingleFieldAndWell

namespace Optimization4SingleFieldAndWell_simCJ

open PyChamp

/-- Embedding of `setup_ini_model` of the class
`Optimization4SingleFieldAndWell_simCJ` (source lines 855-936); the class
body is textually identical to `Optimization4SingleFieldAndWell` and so is
this embedding. -/
def setup_ini_model (horizon : ℤ) (crop_options : Option (List String)) :
    Except String IniModel :=
  let co := crop_options.getD ["corn", "others"]
  let n_c := co.length
  if horizon < 0 then
    Except.error "ValueError: negative dimensions are not allowed"
  else
    let n_h := horizon.toNat
    Except.ok
      { crop_options := co
        n_c := n_c
        n_h := n_h
        field_ids := []
        well_ids := []
        water_right_ids := []
        n_fields := 0
        n_wells := 0
        n_water_rights := 0
        irr_depth_dim := (n_c, n_h)
        v_dim := n_h
        y_dim := (n_c, n_h)
        y_y_dim := n_h
        e_dim := n_h
        profit_dim := n_h }

/-- Tail cap of the `_simCJ` class's `setup_constr_wr` (source lines
1341-1348). -/
def tailCap (wr_depth : ℚ) (time_window : ℕ) (tail_method : TailMethod)
    (remaining_length : ℕ) : ℚ :=
  match tail_method with
  | TailMethod.proportion => wr_depth * remaining_length / time_window
  | TailMethod.every => wr_depth
  | TailMethod.value q => q

/-- Middle- and last-period caps of the `_simCJ` class's `setup_constr_wr`
(source lines 1325-1356). -/
def windowCaps (wr_depth : ℚ) (time_window : ℕ) (tail_method : TailMethod)
    (start_index remaining_length : ℕ) : List WRCap :=
  if _h : 0 < time_window ∧ time_window ≤ remaining_length then
    ⟨start_index, time_window, wr_depth⟩ ::
      windowCaps wr_depth time_window tail_method (start_index + time_window)
        (remaining_length - time_window)
  else if 0 < remaining_length then
    [⟨start_index, remaining_length,
      tailCap wr_depth time_window tail_method remaining_length⟩]
  else []
termination_by remaining_length
decreasing_by omega

/-- Cap list generated by the `_simCJ` class's `setup_constr_wr` (source
lines 1297-1356). -/
def setup_constr_wr_caps (n_h : ℕ) (wr_depth : ℚ) (time_window : ℕ)
    (remaining_tw : Option ℕ) (remaining_wr : Option ℚ)
    (tail_method : TailMethod) : List WRCap :=
  match remaining_tw, remaining_wr with
  | some rtw, some rwr =>
      ⟨0, rtw, rwr⟩ ::
        windowCaps wr_depth time_window tail_method rtw (n_h - rtw)
  | _, _ => windowCaps wr_depth time_window tail_method 0 n_h

/-- Carryover record computed by the `_simCJ` class's `setup_constr_wr`
(source lines 1364-1377). -/
def setup_constr_wr_next (wr_depth : ℚ) (time_window : ℤ)
    (remaining_tw : Option ℤ) (remaining_wr : Option ℚ) :
    Option ℚ × Option ℤ :=
  if time_window = 1 then (none, none)
  else
    match remaining_tw with
    | none => (some wr_depth, some (time_window - 1))
    | some rtw =>
        if rtw - 1 = 0 then (none, some time_window)
        else (remaining_wr, some (rtw - 1))

/-- Crop-choice and rainfed constraint block of the `_simCJ` class's
`setup_constr_field` (source lines 1050-1082). -/
def field_constr_sat (n_c n_h : ℕ) (field_type : FieldType)
    (i_crop_input i_rainfed_input : Option (ℕ → ℚ))
    (i_crop i_rainfed : ℕ → ℚ) (irr_depth : ℕ → ℕ → ℚ) : Prop :=
  (∀ c < n_c, i_crop c = 0 ∨ i_crop c = 1) ∧
  (∀ c < n_c, i_rainfed c = 0 ∨ i_rainfed c = 1) ∧
  (∀ ic, i_crop_input = some ic → ∀ c < n_c, i_crop c = ic c) ∧
  ((∑ c in Finset.range n_c, i_crop c) = 1) ∧
  (match field_type with
   | FieldType.rainfed =>
       (∀ ir, i_rainfed_input = some ir → ∀ c < n_c, i_rainfed c = ir c) ∧
       (∀ c < n_c, 0 ≤ i_crop c - i_rainfed c) ∧
       (∀ c < n_c, ∀ h < n_h, irr_depth c h = 0)
   | FieldType.irrigated => ∀ c < n_c, i_rainfed c = 0
   | FieldType.optimize =>
       (∀ c < n_c, 0 ≤ i_crop c - i_rainfed c) ∧
       (∀ c < n_c, ∀ h < n_h, irr_depth c h * i_rainfed c = 0))

/-- Pumping energy of year `h` in the `_simCJ` class's `setup_constr_well`
(source lines 1181-1200). -/
def well_energy (dwl B l_wt eff_pump rho g : ℚ) (v : ℕ → ℚ) (h : ℕ) : ℚ :=
  let dwls := dwl * (h : ℚ)
  let l_wt_h := l_wt - dwls
  let B_h := B - 0.00015 * dwls
  let A := rho * g / eff_pump * 1e-11
  A * 0.0058 * B_h * v h * v h + A * (l_wt_h + 12.65 + 0.212206 * B_h) * v h

/-- Per-crop margin of the `_simCJ` class's `setup_constr_finance`
(source lines 1212-1215). -/
def crop_profit (crop_price crop_cost : String → ℚ) (c : String) : ℚ :=
  crop_price c - crop_cost c

/-- Revenue of a year in the `_simCJ` class (source lines 1230-1236). -/
def rev (crop_options : List String) (crop_price crop_cost : String → ℚ)
    (y : String → ℚ) : ℚ :=
  (crop_options.map fun c => y c * crop_profit crop_price crop_cost c).sum

/-- Per-field-averaged profit of the `_simCJ` class's `finish_setup`
(source line 1465). -/
def finish_profit (rev_h cost_e_h annual_cost_h : ℚ) (n_f : ℕ) :
    Except String ℚ :=
  if n_f = 0 then Except.error "ZeroDivisionError"
  else Except.ok ((rev_h - cost_e_h - annual_cost_h) / n_f)

/-- Target handling of the `_simCJ` class's `setup_obj` (source lines
1414-1439). -/
def setup_obj (target : String) (n_h : ℕ) : Except String String :=
  if n_h = 0 then Except.error "ZeroDivisionError"
  else if target ∈ ["profit", "yield_rate"] then Except.ok target
  else Except.error "TypeError: NoneType is not subscriptable"

/-- First-year total irrigation depth in the `_simCJ` class's `solve`
(source lines 1548 and 1559). -/
def firstYearIrr (n_c : ℕ) (irr_depth : ℕ → ℕ → ℚ) : ℚ :=
  ∑ j in Finset.range n_c, irr_depth j 0

/-- Rainfed post-processing of the `_simCJ` class's `solve` (source lines
1546-1552). -/
def update_rainfed (n_c : ℕ) (irr_depth : ℕ → ℕ → ℚ)
    (i_rainfed i_crop : ℕ → ℕ → ℚ) : ℕ → ℕ → ℚ :=
  let forced := if firstYearIrr n_c irr_depth ≤ 0 then
      (fun _ _ => (1 : ℚ)) else i_rainfed
  fun c h => forced c h * i_crop c h

/-- Remaining-water-right update of the `_simCJ` class's `solve` (source
lines 1556-1559). -/
def update_remaining_wr (irr1 : ℚ) (r : WrInfo) : WrInfo :=
  match r.remaining_wr with
  | some wr => { r with remaining_wr := some (wr - irr1) }
  | none => r

/-- Update of every carryover record in the `_simCJ` class's `solve`
(source lines 1554-1560). -/
def solve_update_wrs (n_c : ℕ) (irr_depth : ℕ → ℕ → ℚ)
    (wrs : List WrInfo) : List WrInfo :=
  wrs.map (update_remaining_wr (firstYearIrr n_c irr_depth))

/-- Clamp of the scaled metric in the `_simCJ` class's `solve` (source
line 1540). -/
noncomputable def clamp0 (x : ℝ) : ℝ := if x < 0 then 0 else x

/-- Per-year satisfaction in the `_simCJ` class's `solve` (source line
1541). -/
noncomputable def N_yr (alpha x : ℝ) : ℝ := 1 - Real.exp (-alpha * x)

/-- Post-solve satisfaction of the `_simCJ` class's `solve` (source lines
1532-1542). -/
noncomputable def Sa (alpha scale : ℝ) (n_h : ℕ) (metric : ℕ → ℝ) : ℝ :=
  (∑ h in Finset.range n_h, N_yr alpha (clamp0 (metric h / scale))) / n_h

/-- Filename normalization of the `_simCJ` class's `write_file` (source
lines 1677-1682). -/
def write_file_name (filename extension : String) : String :=
  let ext := if extension.startsWith "." then extension
    else "." ++ extension
  if filename.endsWith ext then filename else filename ++ ext

/-- Filename normalization of the `_simCJ` class's `do_IIS_gp` (source
lines 1653-1655). -/
def iis_file_name (filename : String) : String :=
  if filename.takeRight 4 = ".ilp" then filename else filename ++ ".ilp"

end Optimization4SingleFieldAndWell_simCJ

section WaterRightTheorems

open PyChamp Optimization4SingleFieldAndWell

/-- Closed form of `windowCaps` for a positive `time_window`: the
`remaining_length` years starting at `start_index` are partitioned into
`remaining_length / time_window` full windows capped at `wr_depth`,
followed by one tail cap on the `remaining_length % time_window` leftover
years. -/
theorem windowCaps_partition (wr_depth : ℚ) (tw : ℕ) (tm : TailMethod)
    (htw : 0 < tw) :
    ∀ rl s, windowCaps wr_depth tw tm s rl =
      ((List.range (rl / tw)).map fun k =>
          (⟨s + k * tw, tw, wr_depth⟩ : WRCap)) ++
        (if rl % tw = 0 then ([] : List WRCap)
         else [⟨s + rl / tw * tw, rl % tw, tailCap wr_depth tw tm (rl % tw)⟩]) := by
  intro rl
  induction rl using Nat.strong_induction_on with
  | _ rl ih =>
    intro s
    rw [windowCaps]
    by_cases hc : tw ≤ rl
    · rw [dif_pos ⟨htw, hc⟩, ih (rl - tw) (by omega) (s + tw)]
      have h1 : rl / tw = (rl - tw) / tw + 1 := Nat.div_eq_sub_div htw hc
      have h2 : rl % tw = (rl - tw) % tw := Nat.mod_eq_sub_mod hc
      rw [h1, h2, List.range_succ_eq_map]
      simp only [List.map_cons, List.map_map, List.cons_append]
      congr 1
      · simp
      congr 1
      · apply List.map_congr_left
        intro k _
        simp only [Function.comp_apply, WRCap.mk.injEq, and_true,
          Nat.succ_eq_add_one]
        ring
      · have hlo : s + ((rl - tw) / tw + 1) * tw = s + tw + (rl - tw) / tw * tw := by
          ring
        rw [hlo]
    · have hcond : ¬ (0 < tw ∧ tw ≤ rl) := by omega
      rw [dif_neg hcond]
      have hlt : rl < tw := by omega
      have hd : rl / tw = 0 := Nat.div_eq_of_lt hlt
      have hm : rl % tw = rl := Nat.mod_eq_of_lt hlt
      rw [hd, hm]
      by_cases h0 : 0 < rl
      · have : ¬ rl = 0 := by omega
        simp [h0, this]
      · have : rl = 0 := by omega
        simp [this]

end WaterRightTheorems

section ClaimC1

open PyChamp Optimization4SingleFieldAndWell

/-- C1: for every call to `setup_constr_wr` with no remaining carryover,
the horizon is partitioned into `n_h / time_window` consecutive full
windows of length `time_window`, each capped at `wr_depth`, followed by
one tail cap on the `n_h % time_window` leftover years; in particular for
horizon 5, `time_window = 2`, `wr_depth = 10`, `tail_method =
"proportion"` exactly three caps are generated: years 0-1 capped at 10,
years 2-3 capped at 10, and year 4 capped at 5. -/
theorem C1_wr_caps_partition (n_h time_window : ℕ) (wr_depth : ℚ)
    (tm : TailMethod) (htw : 0 < time_window) :
    (setup_constr_wr_caps n_h wr_depth time_window none none tm =
      ((List.range (n_h / time_window)).map fun k =>
          (⟨k * time_window, time_window, wr_depth⟩ : WRCap)) ++
        (if n_h % time_window = 0 then ([] : List WRCap)
         else [⟨n_h / time_window * time_window, n_h % time_window,
               tailCap wr_depth time_window tm (n_h % time_window)⟩])) ∧
    setup_constr_wr_caps 5 10 2 none none TailMethod.proportion =
      [⟨0, 2, 10⟩, ⟨2, 2, 10⟩, ⟨4, 1, 5⟩] := by
  constructor
  · have h := windowCaps_partition wr_depth time_window tm htw n_h 0
    simpa [setup_constr_wr_caps] using h
  · simp [setup_constr_wr_caps, windowCaps, tailCap]
    norm_num

/-- Witness for C1 at the concrete instance of the claim. -/
theorem C1_wr_caps_partition_witness :
    setup_constr_wr_caps 5 10 2 none none TailMethod.proportion =
      [⟨0, 2, 10⟩, ⟨2, 2, 10⟩, ⟨4, 1, 5⟩] :=
  (C1_wr_caps_partition 5 2 10 TailMethod.proportion (by norm_num)).2

end ClaimC1

section ClaimC2

open PyChamp Optimization4SingleFieldAndWell

/-- C2 counterexample: with `time_window = 2` and incoming
`remaining_tw = 1` (the window's last year) the claim asserts both stored
fields are reset to absent, but the source stores
`remaining_tw = time_window = 2` (only `remaining_wr` becomes absent). -/
theorem C2_carryover_counterexample :
    setup_constr_wr_next 10 2 (some 1) (some 10) ≠
      ((none : Option ℚ), (none : Option ℤ)) := by
  decide

/-- C2 amended: the stored carryover pair `(remaining_wr, remaining_tw)`
satisfies: if `time_window = 1` both fields are absent; otherwise, with
`remaining_tw` absent (first use) it is `(wr_depth, time_window - 1)`;
with incoming `remaining_tw = 1` (the window's last year) `remaining_wr`
is reset to absent while `remaining_tw` is set to `time_window` (not to
absent, as the claim stated); otherwise `remaining_tw` is decremented and
`remaining_wr` is left unchanged.  Independent of solved usage. -/
theorem C2_carryover_transition (wr_depth : ℚ) (tw : ℤ)
    (rtw : Option ℤ) (rwr : Option ℚ) :
    (tw = 1 → setup_constr_wr_next wr_depth tw rtw rwr = (none, none)) ∧
    (tw ≠ 1 → rtw = none →
      setup_constr_wr_next wr_depth tw rtw rwr =
        (some wr_depth, some (tw - 1))) ∧
    (tw ≠ 1 → rtw = some 1 →
      setup_constr_wr_next wr_depth tw rtw rwr = (none, some tw)) ∧
    (tw ≠ 1 → ∀ r : ℤ, rtw = some r → r ≠ 1 →
      setup_constr_wr_next wr_depth tw rtw rwr = (rwr, some (r - 1))) := by
  refine ⟨?_, ?_, ?_, ?_⟩
  · intro h1
    simp [setup_constr_wr_next, h1]
  · intro h1 h2
    simp [setup_constr_wr_next, h1, h2]
  · intro h1 h2
    simp [setup_constr_wr_next, h1, h2]
  · intro h1 r h2 h3
    have : ¬ (r - 1 = 0) := by omega
    simp [setup_constr_wr_next, h1, h2, this]

/-- Witness for C2's amended transition, exercising the decrement case. -/
theorem C2_carryover_transition_witness :
    setup_constr_wr_next 10 3 (some 2) (some 7) = (some 7, some 1) :=
  (C2_carryover_transition 10 3 (some 2) (some 7)).2.2.2 (by norm_num) 2 rfl
    (by norm_num)

end ClaimC2

section ClaimC5

open PyChamp Optimization4SingleFieldAndWell

/-- C5: in post-solve extraction, every carryover record with a present
`remaining_wr` has it decremented by the first-year total irrigation
depth (`Option.map` captures the if-and-only-if), every other field of
every record is unchanged, and a record with an absent `remaining_wr` is
left entirely unchanged. -/
theorem C5_remaining_wr_frame (n_c : ℕ) (irr : ℕ → ℕ → ℚ)
    (wrs : List PyChamp.WrInfo) (i : ℕ)
    (hi : i < (solve_update_wrs n_c irr wrs).length) (hj : i < wrs.length) :
    ((solve_update_wrs n_c irr wrs).length = wrs.length) ∧
    (((solve_update_wrs n_c irr wrs).get ⟨i, hi⟩).remaining_wr =
      ((wrs.get ⟨i, hj⟩).remaining_wr.map fun w => w - firstYearIrr n_c irr)) ∧
    (((solve_update_wrs n_c irr wrs).get ⟨i, hi⟩).wr_depth =
      (wrs.get ⟨i, hj⟩).wr_depth) ∧
    (((solve_update_wrs n_c irr wrs).get ⟨i, hi⟩).time_window =
      (wrs.get ⟨i, hj⟩).time_window) ∧
    (((solve_update_wrs n_c irr wrs).get ⟨i, hi⟩).remaining_tw =
      (wrs.get ⟨i, hj⟩).remaining_tw) ∧
    (((solve_update_wrs n_c irr wrs).get ⟨i, hi⟩).tail_method =
      (wrs.get ⟨i, hj⟩).tail_method) ∧
    ((wrs.get ⟨i, hj⟩).remaining_wr = none →
      (solve_update_wrs n_c irr wrs).get ⟨i, hi⟩ = wrs.get ⟨i, hj⟩) := by
  have hlen : (solve_update_wrs n_c irr wrs).length = wrs.length := by
    simp [solve_update_wrs]
  have hget : (solve_update_wrs n_c irr wrs).get ⟨i, hi⟩ =
      update_remaining_wr (firstYearIrr n_c irr) (wrs.get ⟨i, hj⟩) := by
    simp [solve_update_wrs, List.get_eq_getElem]
  rw [hget]
  set r := wrs.get ⟨i, hj⟩ with hr
  refine ⟨hlen, ?_, ?_, ?_, ?_, ?_, ?_⟩ <;>
    cases hcase : r.remaining_wr <;>
      simp [update_remaining_wr, hcase]

/-- Witness for C5 on a one-record list with a present remaining balance. -/
theorem C5_remaining_wr_frame_witness :
    ((solve_update_wrs 2 (fun _ _ => 3)
        [⟨10, 2, some 1, some 5, TailMethod.proportion⟩]).get
      ⟨0, by simp [solve_update_wrs]⟩).remaining_wr =
      ((some (5 : ℚ)).map fun w => w - firstYearIrr 2 (fun _ _ => 3)) :=
  (C5_remaining_wr_frame 2 (fun _ _ => 3)
    [⟨10, 2, some 1, some 5, TailMethod.proportion⟩] 0
    (by simp [solve_update_wrs]) (by simp)).2.1

end ClaimC5

section ClaimC9

open PyChamp Optimization4SingleFieldAndWell

/-- C9: the remaining-water-right update subtracts the solved first-year
total irrigation depth with no lower clamp at zero; in particular a
record with 5 cm left and 7 cm drawn carries over `-2`, which the next
invocation's `setup_constr_wr` uses verbatim as the cumulative cap of its
initial period. -/
theorem C9_no_clamp :
    (∀ (r : PyChamp.WrInfo) (w irr1 : ℚ), r.remaining_wr = some w →
      (update_remaining_wr irr1 r).remaining_wr = some (w - irr1)) ∧
    ((update_remaining_wr 7
        ⟨10, 2, some 1, some 5, TailMethod.proportion⟩).remaining_wr =
      some (-2)) ∧
    ((-2 : ℚ) < 0) ∧
    ((setup_constr_wr_caps 3 10 2 (some 1) (some (-2))
        TailMethod.proportion).head? = some ⟨0, 1, -2⟩) := by
  refine ⟨?_, ?_, by norm_num, ?_⟩
  · intro r w irr1 h
    simp [update_remaining_wr, h]
  · simp [update_remaining_wr]
    norm_num
  · rfl

/-- Witness for C9's unclamped subtraction at a concrete record. -/
theorem C9_no_clamp_witness :
    (update_remaining_wr 7
        ⟨10, 2, some 1, some 5, TailMethod.proportion⟩).remaining_wr =
      some (5 - 7) :=
  C9_no_clamp.1 ⟨10, 2, some 1, some 5, TailMethod.proportion⟩ 5 7 rfl

end ClaimC9

section ClaimC4

open PyChamp Optimization4SingleFieldAndWell

/-- C4: in post-solve extraction, if the first-year total irrigation depth
is at most 0 the rainfed indicator is forced to 1 everywhere before the
crop-choice mask (so the reported value is exactly the crop indicator);
otherwise the solved rainfed indicator is kept; and in all cases the
result is multiplied elementwise by the crop-choice indicator, so a
non-selected crop never reports a rainfed flag. -/
theorem C4_rainfed_postprocess (n_c : ℕ) (irr i_rf i_cr : ℕ → ℕ → ℚ) :
    (firstYearIrr n_c irr ≤ 0 →
      ∀ c h, update_rainfed n_c irr i_rf i_cr c h = 1 * i_cr c h) ∧
    (¬ firstYearIrr n_c irr ≤ 0 →
      ∀ c h, update_rainfed n_c irr i_rf i_cr c h = i_rf c h * i_cr c h) ∧
    (∀ c h, i_cr c h = 0 → update_rainfed n_c irr i_rf i_cr c h = 0) := by
  refine ⟨?_, ?_, ?_⟩
  · intro hle c h
    simp [update_rainfed, hle]
  · intro hgt c h
    simp [update_rainfed, hgt]
  · intro c h hz
    by_cases hle : firstYearIrr n_c irr ≤ 0 <;>
      simp [update_rainfed, hle, hz]

/-- Witness for C4 with zero irrigation and a non-selected crop. -/
theorem C4_rainfed_postprocess_witness :
    update_rainfed 2 (fun _ _ => 0) (fun _ _ => 1) (fun _ _ => 0) 1 0 = 0 :=
  (C4_rainfed_postprocess 2 (fun _ _ => 0) (fun _ _ => 1)
    (fun _ _ => 0)).2.2 1 0 rfl

end ClaimC4

section ClaimC6

open PyChamp Optimization4SingleFieldAndWell

/-- C6 counterexample: `horizon = 0` is strictly less than 1, yet
`setup_ini_model` accepts the call without any error (the source contains
no horizon validation, and the external array allocation accepts
zero-sized dimensions, yielding empty variable arrays). -/
theorem C6_horizon_counterexample :
    (0 : ℤ) < 1 ∧ (setup_ini_model 0 none).isOk = true := by
  constructor
  · norm_num
  · rfl

/-- C6 amended: `setup_ini_model` performs no horizon validation of its
own; every nonnegative horizon — in particular `horizon = 0` — is
silently accepted and produces variable arrays of horizon length, and
only a negative horizon fails, through the external array allocation's
rejection of negative dimensions. -/
theorem C6_horizon_validation (horizon : ℤ) (co : Option (List String)) :
    (horizon < 0 → (setup_ini_model horizon co).isOk = false) ∧
    (0 ≤ horizon → ∃ s : PyChamp.IniModel,
      setup_ini_model horizon co = Except.ok s ∧ s.n_h = horizon.toNat ∧
        s.irr_depth_dim =
          ((co.getD ["corn", "others"]).length, horizon.toNat)) := by
  constructor
  · intro hneg
    simp [setup_ini_model, hneg, Except.isOk, Except.toBool]
  · intro hpos
    have hnot : ¬ horizon < 0 := by omega
    simp only [setup_ini_model, if_neg hnot]
    exact ⟨_, rfl, rfl, rfl⟩

/-- Witness for C6's amended claim at horizons `-1` and `0`. -/
theorem C6_horizon_validation_witness :
    (setup_ini_model (-1) none).isOk = false ∧
    ∃ s : PyChamp.IniModel, setup_ini_model 0 none = Except.ok s ∧
      s.n_h = (0 : ℤ).toNat ∧
      s.irr_depth_dim =
        (((none : Option (List String)).getD ["corn", "others"]).length,
          (0 : ℤ).toNat) :=
  ⟨(C6_horizon_validation (-1) none).1 (by norm_num),
    (C6_horizon_validation 0 none).2 (by norm_num)⟩

end ClaimC6

section ClaimC7

open PyChamp Optimization4SingleFieldAndWell

/-- C7: `setup_obj` supports exactly the two targets `"profit"` and
`"yield_rate"` (for a positive horizon both are accepted), and every
other target name makes the call fail with an error — the source prints
a warning and then raises while building the satisfaction-proxy
constraint — rather than silently defaulting or proceeding. -/
theorem C7_obj_targets (n_h : ℕ) (hn : 0 < n_h) :
    (setup_obj "profit" n_h).isOk = true ∧
    (setup_obj "yield_rate" n_h).isOk = true ∧
    (∀ target : String, target ≠ "profit" → target ≠ "yield_rate" →
      (setup_obj target n_h).isOk = false) := by
  have hz : ¬ n_h = 0 := by omega
  refine ⟨?_, ?_, ?_⟩
  · simp [setup_obj, eval_metric_keys, hz, Except.isOk, Except.toBool]
  · simp [setup_obj, eval_metric_keys, hz, Except.isOk, Except.toBool]
  · intro target h1 h2
    simp [setup_obj, eval_metric_keys, hz, h1, h2, Except.isOk, Except.toBool]

/-- Witness for C7 at horizon 1 with the valid and an invalid target. -/
theorem C7_obj_targets_witness :
    (setup_obj "profit" 1).isOk = true ∧
    (setup_obj "fairness" 1).isOk = false :=
  ⟨(C7_obj_targets 1 (by norm_num)).1,
    (C7_obj_targets 1 (by norm_num)).2.2 "fairness" (by decide) (by decide)⟩

end ClaimC7

section ClaimC8

open PyChamp Optimization4SingleFieldAndWell

/-- C8: every assignment satisfying the constraint block of
`setup_constr_field` has crop-choice binaries summing to 1, hence exactly
one crop chosen (one binary is 1 and all others are 0), and in the
`"rainfed"` and `"optimize"` field types the rainfed flag implies the
crop flag (`i_crop - i_rainfed ≥ 0`). -/
theorem C8_field_invariants (n_c n_h : ℕ) (ft : FieldType)
    (ici iri : Option (ℕ → ℚ)) (i_crop i_rainfed : ℕ → ℚ)
    (irr : ℕ → ℕ → ℚ)
    (hsat : field_constr_sat n_c n_h ft ici iri i_crop i_rainfed irr) :
    ((∑ c in Finset.range n_c, i_crop c) = 1) ∧
    (∃ c, c < n_c ∧ i_crop c = 1 ∧
      ∀ j, j < n_c → j ≠ c → i_crop j = 0) ∧
    ((ft = FieldType.rainfed ∨ ft = FieldType.optimize) →
      ∀ c, c < n_c → i_rainfed c ≤ i_crop c) := by
  obtain ⟨hbc, hbr, hpin, hsum, hbranch⟩ := hsat
  have hnonneg : ∀ j ∈ Finset.range n_c, (0 : ℚ) ≤ i_crop j := by
    intro j hj
    rcases hbc j (Finset.mem_range.mp hj) with h | h <;> simp [h]
  refine ⟨hsum, ?_, ?_⟩
  · -- a nonzero (hence 1-valued) entry exists, and it is unique
    have hex : ∃ c ∈ Finset.range n_c, i_crop c ≠ 0 := by
      by_contra hall
      push_neg at hall
      have : (∑ c in Finset.range n_c, i_crop c) = 0 :=
        Finset.sum_eq_zero hall
      rw [hsum] at this
      norm_num at this
    obtain ⟨c, hcmem, hcne⟩ := hex
    have hc1 : i_crop c = 1 := by
      rcases hbc c (Finset.mem_range.mp hcmem) with h | h
      · exact absurd h hcne
      · exact h
    refine ⟨c, Finset.mem_range.mp hcmem, hc1, ?_⟩
    intro j hj hne
    by_contra hjne
    have hj1 : i_crop j = 1 := by
      rcases hbc j hj with h | h
      · exact absurd h hjne
      · exact h
    have hpair : ({c, j} : Finset ℕ) ⊆ Finset.range n_c := by
      intro x hx
      rcases Finset.mem_insert.mp hx with h | h
      · exact h ▸ hcmem
      · exact Finset.mem_singleton.mp h ▸ Finset.mem_range.mpr hj
    have hle : (∑ x in ({c, j} : Finset ℕ), i_crop x) ≤
        ∑ x in Finset.range n_c, i_crop x := by
      apply Finset.sum_le_sum_of_subset_of_nonneg hpair
      intro x hx _
      exact hnonneg x hx
    rw [Finset.sum_pair (Ne.symm hne), hc1, hj1, hsum] at hle
    norm_num at hle
  · intro hft c hc
    have : 0 ≤ i_crop c - i_rainfed c := by
      rcases hft with h | h <;> subst h
      · exact hbranch.2.1 c hc
      · exact hbranch.1 c hc
    linarith

/-- Witness for C8: a concrete satisfying assignment for two crop options
under the `"optimize"` field type selecting crop 0. -/
theorem C8_field_invariants_witness :
    ((∑ c in Finset.range 2,
        (fun c => if c = 0 then (1 : ℚ) else 0) c) = 1) ∧
    (∃ c, c < 2 ∧ (fun c => if c = 0 then (1 : ℚ) else 0) c = 1 ∧
      ∀ j, j < 2 → j ≠ c →
        (fun c => if c = 0 then (1 : ℚ) else 0) j = 0) ∧
    ((FieldType.optimize = FieldType.rainfed ∨
        FieldType.optimize = FieldType.optimize) →
      ∀ c, c < 2 → (fun _ => (0 : ℚ)) c ≤
        (fun c => if c = 0 then (1 : ℚ) else 0) c) := by
  apply C8_field_invariants 2 1 FieldType.optimize none none _ _
    (fun _ _ => 0)
  refine ⟨?_, ?_, ?_, ?_, ?_, ?_⟩
  · intro c _
    by_cases h : c = 0 <;> simp [h]
  · intro c _
    left
    rfl
  · intro ic hic
    cases hic
  · simp [Finset.sum_range_succ]
  · intro c hc
    by_cases h : c = 0 <;> simp [h]
  · intro c _ h _
    simp

end ClaimC8

section ClaimC3

open PyChamp Optimization4SingleFieldAndWell

/-- The clamp of the solve post-processing equals `max 0`. -/
theorem clamp0_eq_max (x : ℝ) : clamp0 x = max 0 x := by
  unfold clamp0
  rcases lt_or_le x 0 with h | h
  · rw [if_pos h, max_eq_left h.le]
  · rw [if_neg (not_lt.mpr h), max_eq_right h]

/-- The per-year satisfaction is nonnegative on nonnegative inputs for a
positive `alpha`. -/
theorem N_yr_nonneg (alpha x : ℝ) (ha : 0 < alpha) (hx : 0 ≤ x) :
    0 ≤ N_yr alpha x := by
  unfold N_yr
  have hexp : Real.exp (-alpha * x) ≤ 1 := by
    rw [← Real.exp_zero]
    apply Real.exp_le_exp.mpr
    nlinarith
  linarith

/-- The per-year satisfaction is always strictly below 1. -/
theorem N_yr_lt_one (alpha x : ℝ) : N_yr alpha x < 1 := by
  unfold N_yr
  have := Real.exp_pos (-alpha * x)
  linarith

/-- The per-year satisfaction is monotone for a positive `alpha`. -/
theorem N_yr_mono (alpha x y : ℝ) (ha : 0 < alpha) (hxy : x ≤ y) :
    N_yr alpha x ≤ N_yr alpha y := by
  unfold N_yr
  have hexp : Real.exp (-alpha * y) ≤ Real.exp (-alpha * x) := by
    apply Real.exp_le_exp.mpr
    nlinarith
  linarith

/-- Division by a positive scale commutes with the clamp. -/
theorem clamp0_div (scale x : ℝ) (hs : 0 < scale) :
    clamp0 (max 0 x / scale) = clamp0 (x / scale) := by
  rw [clamp0_eq_max, clamp0_eq_max]
  rcases le_or_lt 0 x with h | h
  · rw [max_eq_right h]
  · have hx0 : x / scale < 0 := div_neg_of_neg_of_pos h hs
    rw [max_eq_left h.le]
    rw [max_eq_left hx0.le]
    simp

/-- C3: the post-solve satisfaction equals the mean over horizon years of
`1 - exp(-alpha * max(0, metric[h] / scale))`; for positive `alpha`,
`scale` and horizon it is monotone non-decreasing in each year's metric,
lies in `[0, 1)` for every metric vector, is 0 at the zero metric, is
unchanged by pre-clamping negative metric values to zero, and tends to 1
as the (uniform) metric tends to infinity. -/
theorem C3_satisfaction (alpha scale : ℝ) (n_h : ℕ)
    (halpha : 0 < alpha) (hscale : 0 < scale) (hn : 0 < n_h) :
    (∀ metric : ℕ → ℝ, Sa alpha scale n_h metric =
      (∑ h in Finset.range n_h,
        (1 - Real.exp (-alpha * max 0 (metric h / scale)))) / n_h) ∧
    (∀ f g : ℕ → ℝ, (∀ h, f h ≤ g h) →
      Sa alpha scale n_h f ≤ Sa alpha scale n_h g) ∧
    (∀ metric : ℕ → ℝ,
      0 ≤ Sa alpha scale n_h metric ∧ Sa alpha scale n_h metric < 1) ∧
    (Sa alpha scale n_h (fun _ => 0) = 0) ∧
    (∀ metric : ℕ → ℝ, Sa alpha scale n_h metric =
      Sa alpha scale n_h (fun h => max 0 (metric h))) ∧
    Filter.Tendsto (fun t : ℝ => Sa alpha scale n_h (fun _ => t))
      Filter.atTop (nhds 1) := by
  have hnr : (0 : ℝ) < (n_h : ℝ) := by exact_mod_cast hn
  have hclamp_nonneg : ∀ x : ℝ, 0 ≤ clamp0 x := by
    intro x
    rw [clamp0_eq_max]
    exact le_max_left 0 x
  refine ⟨?_, ?_, ?_, ?_, ?_, ?_⟩
  · intro metric
    unfold Sa N_yr
    congr 1
    apply Finset.sum_congr rfl
    intro h _
    rw [clamp0_eq_max]
  · intro f g hfg
    unfold Sa
    rw [div_le_div_iff_of_pos_right hnr]
    apply Finset.sum_le_sum
    intro h _
    apply N_yr_mono _ _ _ halpha
    rw [clamp0_eq_max, clamp0_eq_max]
    exact max_le_max le_rfl ((div_le_div_iff_of_pos_right hscale).mpr (hfg h))
  · intro metric
    constructor
    · apply div_nonneg _ hnr.le
      apply Finset.sum_nonneg
      intro h _
      exact N_yr_nonneg _ _ halpha (hclamp_nonneg _)
    · have hsum : (∑ h in Finset.range n_h,
          N_yr alpha (clamp0 (metric h / scale))) <
          ∑ _h in Finset.range n_h, (1 : ℝ) := by
        apply Finset.sum_lt_sum_of_nonempty
        · exact Finset.nonempty_range_iff.mpr (by omega)
        · intro h _
          exact N_yr_lt_one _ _
      have hone : (∑ _h in Finset.range n_h, (1 : ℝ)) = n_h := by
        simp
      unfold Sa
      rw [← div_self hnr.ne']
      rw [div_lt_div_iff_of_pos_right hnr]
      rw [hone] at hsum
      exact hsum
  · simp [Sa, N_yr, clamp0]
  · intro metric
    unfold Sa
    congr 1
    apply Finset.sum_congr rfl
    intro h _
    rw [clamp0_div _ _ hscale]
  · have hconst : ∀ t : ℝ, Sa alpha scale n_h (fun _ => t) =
        N_yr alpha (clamp0 (t / scale)) := by
      intro t
      unfold Sa
      rw [Finset.sum_const, Finset.card_range, nsmul_eq_mul,
        mul_div_cancel_left₀ _ hnr.ne']
    have h1 : Filter.Tendsto (fun t : ℝ => t / scale) Filter.atTop
        Filter.atTop := Filter.tendsto_id.atTop_div_const hscale
    have h2 : Filter.Tendsto (fun t : ℝ => clamp0 (t / scale))
        Filter.atTop Filter.atTop := by
      apply Filter.tendsto_atTop_mono _ h1
      intro t
      rw [clamp0_eq_max]
      exact le_max_right _ _
    have h3 : Filter.Tendsto (fun t : ℝ => alpha * clamp0 (t / scale))
        Filter.atTop Filter.atTop := h2.const_mul_atTop halpha
    have h4 : Filter.Tendsto (fun t : ℝ => -(alpha * clamp0 (t / scale)))
        Filter.atTop Filter.atBot := Filter.tendsto_neg_atTop_atBot.comp h3
    have h5 : Filter.Tendsto
        (fun t : ℝ => Real.exp (-(alpha * clamp0 (t / scale))))
        Filter.atTop (nhds 0) := Real.tendsto_exp_atBot.comp h4
    have h6 : Filter.Tendsto
        (fun t : ℝ => 1 - Real.exp (-(alpha * clamp0 (t / scale))))
        Filter.atTop (nhds (1 - 0)) :=
      Filter.Tendsto.sub tendsto_const_nhds h5
    apply Filter.Tendsto.congr (fun t => (hconst t).symm)
    simpa [N_yr, neg_mul] using h6

/-- Witness for C3: satisfaction of the zero metric at unit parameters. -/
theorem C3_satisfaction_witness : Sa 1 1 1 (fun _ => 0) = 0 :=
  (C3_satisfaction 1 1 1 one_pos one_pos one_pos).2.2.2.1

end ClaimC3

section ClaimC10

/-- The two classes' window-cap loops are the same function. -/
theorem simCJ_windowCaps_eq :
    Optimization4SingleFieldAndWell_simCJ.windowCaps =
      Optimization4SingleFieldAndWell.windowCaps := by
  funext wr_depth tw tm s rl
  induction rl using Nat.strong_induction_on generalizing s with
  | _ rl ih =>
    rw [Optimization4SingleFieldAndWell_simCJ.windowCaps,
      Optimization4SingleFieldAndWell.windowCaps]
    by_cases hc : 0 < tw ∧ tw ≤ rl
    · rw [dif_pos hc, dif_pos hc, ih (rl - tw) (by omega)]
    · rw [dif_neg hc, dif_neg hc]
      rfl

/-- C10: the classes `Optimization4SingleFieldAndWell` and
`Optimization4SingleFieldAndWell_simCJ` are textually identical apart
from their names; correspondingly every embedded operation of the two
classes — model initialization, the field constraint block, the well
energy expression, the finance margin and revenue, the finalization
profit, the water-right cap generation and carryover transition, the
objective target handling, the satisfaction transform, the rainfed and
remaining-water-right post-processing, and the file-name normalizations
of `write_file` and `do_IIS_gp` — is extensionally equal between the two
classes. -/
theorem C10_simCJ_extensional_equality :
    Optimization4SingleFieldAndWell_simCJ.setup_ini_model =
      Optimization4SingleFieldAndWell.setup_ini_model ∧
    Optimization4SingleFieldAndWell_simCJ.field_constr_sat =
      Optimization4SingleFieldAndWell.field_constr_sat ∧
    Optimization4SingleFieldAndWell_simCJ.well_energy =
      Optimization4SingleFieldAndWell.well_energy ∧
    Optimization4SingleFieldAndWell_simCJ.crop_profit =
      Optimization4SingleFieldAndWell.crop_profit ∧
    Optimization4SingleFieldAndWell_simCJ.rev =
      Optimization4SingleFieldAndWell.rev ∧
    Optimization4SingleFieldAndWell_simCJ.finish_profit =
      Optimization4SingleFieldAndWell.finish_profit ∧
    Optimization4SingleFieldAndWell_simCJ.tailCap =
      Optimization4SingleFieldAndWell.tailCap ∧
    Optimization4SingleFieldAndWell_simCJ.windowCaps =
      Optimization4SingleFieldAndWell.windowCaps ∧
    Optimization4SingleFieldAndWell_simCJ.setup_constr_wr_caps =
      Optimization4SingleFieldAndWell.setup_constr_wr_caps ∧
    Optimization4SingleFieldAndWell_simCJ.setup_constr_wr_next =
      Optimization4SingleFieldAndWell.setup_constr_wr_next ∧
    Optimization4SingleFieldAndWell_simCJ.setup_obj =
      Optimization4SingleFieldAndWell.setup_obj ∧
    Optimization4SingleFieldAndWell_simCJ.firstYearIrr =
      Optimization4SingleFieldAndWell.firstYearIrr ∧
    Optimization4SingleFieldAndWell_simCJ.update_rainfed =
      Optimization4SingleFieldAndWell.update_rainfed ∧
    Optimization4SingleFieldAndWell_simCJ.update_remaining_wr =
      Optimization4SingleFieldAndWell.update_remaining_wr ∧
    Optimization4SingleFieldAndWell_simCJ.solve_update_wrs =
      Optimization4SingleFieldAndWell.solve_update_wrs ∧
    Optimization4SingleFieldAndWell_simCJ.clamp0 =
      Optimization4SingleFieldAndWell.clamp0 ∧
    Optimization4SingleFieldAndWell_simCJ.N_yr =
      Optimization4SingleFieldAndWell.N_yr ∧
    Optimization4SingleFieldAndWell_simCJ.Sa =
      Optimization4SingleFieldAndWell.Sa ∧
    Optimization4SingleFieldAndWell_simCJ.write_file_name =
      Optimization4SingleFieldAndWell.write_file_name ∧
    Optimization4SingleFieldAndWell_simCJ.iis_file_name =
      Optimization4SingleFieldAndWell.iis_file_name := by
  refine ⟨rfl, rfl, ?_, rfl, rfl, rfl, rfl, simCJ_windowCaps_eq, ?_, rfl,
    rfl, rfl, rfl, rfl, rfl, rfl, rfl, rfl, rfl, rfl⟩
  · funext dwl B l_wt eff_pump rho g v h
    unfold Optimization4SingleFieldAndWell_simCJ.well_energy
      Optimization4SingleFieldAndWell.well_energy
      Optimization4SingleFieldAndWell.well_A
      Optimization4SingleFieldAndWell.well_B
      Optimization4SingleFieldAndWell.well_l_wt
      Optimization4SingleFieldAndWell.well_dwls
      Optimization4SingleFieldAndWell.tech_a
      Optimization4SingleFieldAndWell.tech_b
      Optimization4SingleFieldAndWell.l_pr
    norm_num
  · funext n_h wr_depth tw rtw rwr tm
    unfold Optimization4SingleFieldAndWell_simCJ.setup_constr_wr_caps
      Optimization4SingleFieldAndWell.setup_constr_wr_caps
    rw [simCJ_windowCaps_eq]

end ClaimC10
